import Mathlib

/-!
Shallow embedding of the line-rendering subsystem of this repository.

Sources embedded here:
* `src/js/render/draw_line.js` — `drawLine`, `bindLineSDFPatternProgram`,
  `bindLinePatternProgram`, `bindLineProgram`, `getExtra`;
* `src/bench/benchmarks/dds_update_bucket.js` — `createLayerFamilies`
  (the single-slot layer-family cache).

JavaScript numbers are modelled as rationals (`ℚ`) everywhere the code only
adds, multiplies, divides and compares, and as reals (`ℝ`) for `getExtra`,
which calls the transcendental `Math.sqrt` and `Math.tan`.  GL side effects
are modelled as a trace (a list of `GLEvent`s); a thrown JavaScript
`TypeError` (dereference of `undefined`/`null`) is modelled as an abort
carrying the trace produced so far.

External collaborators that are not part of this repository slice
(`painter.lineAtlas`, `painter.spriteAtlas`, `pixelsToTileUnits`,
`source.getTile`, `tile.getBucket`) are fields of the corresponding records,
holding arbitrary functions, exactly as the code treats them: opaque lookups.
-/

/-- Dash-atlas entry, `lineAtlas.getDash(id, round) → {x, y, width, height}`. -/
structure DashEntry where
  x : ℚ
  y : ℚ
  width : ℚ
  height : ℚ
deriving DecidableEq

/-- Sprite-atlas entry, `spriteAtlas.getPosition(id, repeating) → {tl, br, size} | null`. -/
structure ImagePos where
  tl : ℚ × ℚ
  br : ℚ × ℚ
  size : ℚ × ℚ
deriving DecidableEq

/-- A cross-faded style value (`line-dasharray` / `line-pattern`):
`{from, to, fromScale, toScale, t}` as produced by the style transition
system.  The JavaScript keys `from`/`to` are spelled `fromId`/`toId`. -/
structure CrossFaded where
  fromId : String
  toId : String
  fromScale : ℚ
  toScale : ℚ
  t : ℚ
deriving DecidableEq

/-- The paint properties of a line layer read by `drawLine`.  An unset
(`undefined`/falsy) `line-dasharray` or `line-pattern` is `none`. -/
structure LinePaint where
  lineWidth : ℚ
  lineBlur : ℚ
  lineOpacity : ℚ
  lineOffset : ℚ
  lineGapWidth : ℚ
  lineTranslate : ℚ × ℚ
  lineTranslateAnchor : String
  lineDasharray : Option CrossFaded
  linePattern : Option CrossFaded
deriving DecidableEq

/-- The layout properties of a line layer read by `drawLine`. -/
structure LineLayout where
  lineCap : String
deriving DecidableEq

/-- A style layer as consumed by `drawLine`. -/
structure Layer where
  id : String
  paint : LinePaint
  layout : LineLayout
deriving DecidableEq

/-- A tile coordinate (`coord`); its `posMatrix` is consumed opaquely by
matrix events and is not modelled numerically. -/
structure Coord where
  z : ℤ
  row : ℤ
  column : ℤ
deriving DecidableEq

/-- One buffer group of a bucket (`group`); only `elementBuffer.length`
feeds the draw call. -/
structure BufferGroup where
  elementBufferLength : ℕ
deriving DecidableEq

/-- A bucket; `bucket.bufferGroups.line` may be absent (falsy). -/
structure Bucket where
  lineBufferGroups : Option (List BufferGroup)
deriving DecidableEq

/-- A tile; `tile.getBucket(layer)` is keyed by the layer id and may
return nothing. -/
structure Tile where
  getBucket : String → Option Bucket

/-- The tile source (`source.getTile(coord)`). -/
structure TileSource where
  getTile : Coord → Tile

/-- The fields of `painter.transform` consumed by the rational part of the
model (`zoom`, `tileZoom`).  The pitch/angle/height/altitude fields feed
only `getExtra` and the antialiasing matrix and are modelled separately
over `ℝ` (`TransformR`). -/
structure Transform where
  zoom : ℚ
  tileZoom : ℚ
deriving DecidableEq

/-- The painter state consumed by `drawLine`.  `getDash`, `getPosition` and
`pixelsToTileUnits` are external collaborators (line atlas, sprite atlas and
the `source/pixels_to_tile_units` module, all outside this repository
slice); they are carried as opaque functions. -/
structure Painter where
  isOpaquePass : Bool
  devicePixelRatio : ℚ
  lineAtlasWidth : ℚ
  getDash : String → Bool → Option DashEntry
  getPosition : String → Bool → Option ImagePos
  transform : Transform
  pixelsToTileUnits : Tile → ℚ → ℚ → ℚ

/-- The shared per-layer uniforms set by the single `painter.setUniforms`
call of `drawLine` (`u_ratio`, `u_blur`, `u_linewidth`, `u_opacity`,
`u_offset`, `u_gapwidth`, `u_antialiasing`).  The eighth shared uniform,
`u_extra`, is the real-valued `getExtra(painter.transform)` modelled
separately below and is therefore not a field of this rational record. -/
structure SharedUniforms where
  ratio : ℚ
  blur : ℚ
  linewidth : ℚ
  opacity : ℚ
  offset : ℚ
  gapwidth : ℚ
  antialiasing : ℚ
deriving DecidableEq

/-- The variant-specific uniforms of the dashed (`linesdfpattern`) program. -/
structure DashedUniforms where
  texYA : ℚ
  texYB : ℚ
  mix : ℚ
  patternscaleA : ℚ × ℚ
  patternscaleB : ℚ × ℚ
  sdfgamma : ℚ
deriving DecidableEq

/-- The variant-specific uniforms of the patterned (`linepattern`) program. -/
structure PatternUniforms where
  patternTlA : ℚ × ℚ
  patternBrA : ℚ × ℚ
  patternTlB : ℚ × ℚ
  patternBrB : ℚ × ℚ
  fade : ℚ
  patternSizeA : ℚ × ℚ
  patternSizeB : ℚ × ℚ
deriving DecidableEq

/-- A thrown JavaScript error; the only kind reachable in this code is a
`TypeError` from dereferencing `undefined`/`null`. -/
inductive JSError
  | typeError
deriving DecidableEq

/-- One GL/painter side effect issued by `drawLine`, in program order. -/
inductive GLEvent
  | setDepthSublayer (n : ℤ)
  | depthMask (flag : Bool)
  | enableStencilTest
  | useProgram (name : String)
  | setDashUniforms (u : DashedUniforms)
  | setPatternUniforms (u : PatternUniforms)
  | uniform1i (name : String) (v : ℕ)
  | activeTexture (unit : ℕ)
  | bindLineAtlas
  | bindSpriteAtlas
  | setSharedUniforms (u : SharedUniforms)
  | setAntialiasingMatrix
  | setPosMatrix
  | setBucketUniforms
  | enableTileClippingMask (c : Coord)
  | bindVAO (layerId : String)
  | drawElementsTriangles (count : ℕ)
deriving DecidableEq

/-- The shared uniform record of `drawLine` (lines 51–60 of
`draw_line.js`):
`u_ratio = 1 / pixelsToTileUnits(tile, 1, zoom)`,
`u_blur = line-blur + 1 / devicePixelRatio`,
`u_linewidth = line-width / 2`, `u_opacity = line-opacity`,
`u_offset = -line-offset`, `u_gapwidth = line-gap-width / 2`,
`u_antialiasing = (1 / devicePixelRatio) / 2`. -/
def sharedLineUniforms (p : Painter) (layer : Layer) (tile : Tile) : SharedUniforms :=
  { ratio := 1 / p.pixelsToTileUnits tile 1 p.transform.zoom
    blur := layer.paint.lineBlur + 1 / p.devicePixelRatio
    linewidth := layer.paint.lineWidth / 2
    opacity := layer.paint.lineOpacity
    offset := -layer.paint.lineOffset
    gapwidth := layer.paint.lineGapWidth / 2
    antialiasing := (1 / p.devicePixelRatio) / 2 }

/-- The uniform record set by `bindLineSDFPatternProgram` once both dash
entries are in hand (`widthA = posA.width * fromScale`,
`widthB = posB.width * toScale`). -/
def dashedLineUniforms (p : Painter) (tile : Tile) (dasharray : CrossFaded)
    (posA posB : DashEntry) : DashedUniforms :=
  let widthA := posA.width * dasharray.fromScale
  let widthB := posB.width * dasharray.toScale
  { texYA := posA.y
    texYB := posB.y
    mix := dasharray.t
    patternscaleA := (1 / p.pixelsToTileUnits tile widthA p.transform.tileZoom, -posA.height / 2)
    patternscaleB := (1 / p.pixelsToTileUnits tile widthB p.transform.tileZoom, -posB.height / 2)
    sdfgamma := p.lineAtlasWidth / (min widthA widthB * 256 * p.devicePixelRatio) / 2 }

/-- The uniform record set by `bindLinePatternProgram` once both sprite
positions are in hand.  Note: the second component of `u_pattern_size_a`
is `imagePosB.size[1]`, exactly as in the source. -/
def patternLineUniforms (p : Painter) (tile : Tile) (image : CrossFaded)
    (posA posB : ImagePos) : PatternUniforms :=
  { patternTlA := posA.tl
    patternBrA := posA.br
    patternTlB := posB.tl
    patternBrB := posB.br
    fade := image.t
    patternSizeA :=
      (p.pixelsToTileUnits tile (posA.size.1 * image.fromScale) p.transform.tileZoom, posB.size.2)
    patternSizeB :=
      (p.pixelsToTileUnits tile (posB.size.1 * image.toScale) p.transform.tileZoom, posB.size.2) }

/-- `bindLineSDFPatternProgram` (lines 76–108).  Result: the events issued
and either a thrown error or the value the function returns (`some`
program, or `none` for a bare `return`).  The code reads
`dasharray.from`/`.to` and `posA.width` etc. with no null guard: a missing
dasharray or a `null` dash entry throws a `TypeError` after
`painter.useProgram` has already run. -/
def bindLineSDFPatternProgram (p : Painter) (layer : Layer) (tile : Tile) :
    List GLEvent × Except JSError (Option String) :=
  match layer.paint.lineDasharray with
  | none => ([.useProgram "linesdfpattern"], .error .typeError)
  | some dasharray =>
    let round := layer.layout.lineCap == "round"
    match p.getDash dasharray.fromId round, p.getDash dasharray.toId round with
    | some posA, some posB =>
      ([.useProgram "linesdfpattern",
        .setDashUniforms (dashedLineUniforms p tile dasharray posA posB),
        .uniform1i "u_image" 0, .activeTexture 0, .bindLineAtlas],
       .ok (some "linesdfpattern"))
    | _, _ => ([.useProgram "linesdfpattern"], .error .typeError)

/-- `bindLinePatternProgram` (lines 110–143).  When either sprite-atlas
lookup is `null` the function executes `return;` — it returns `undefined`
(`ok none`) without setting any pattern uniform. -/
def bindLinePatternProgram (p : Painter) (layer : Layer) (tile : Tile) :
    List GLEvent × Except JSError (Option String) :=
  match layer.paint.linePattern with
  | none => ([.useProgram "linepattern"], .error .typeError)
  | some image =>
    match p.getPosition image.fromId true, p.getPosition image.toId true with
    | some posA, some posB =>
      ([.useProgram "linepattern",
        .setPatternUniforms (patternLineUniforms p tile image posA posB),
        .uniform1i "u_image" 0, .activeTexture 0, .bindSpriteAtlas],
       .ok (some "linepattern"))
    | _, _ => ([.useProgram "linepattern"], .ok none)

/-- `bindLineProgram` (lines 145–152): always succeeds. -/
def bindLineProgram (p : Painter) (layer : Layer) (tile : Tile) :
    List GLEvent × Except JSError (Option String) :=
  ([.useProgram "line"], .ok (some "line"))

/-- The program dispatch of `drawLine` (lines 41–47): dasharray first,
then pattern, else solid. -/
def bindLineLayerProgram (p : Painter) (layer : Layer) (tile : Tile) :
    List GLEvent × Except JSError (Option String) :=
  if layer.paint.lineDasharray.isSome then bindLineSDFPatternProgram p layer tile
  else if layer.paint.linePattern.isSome then bindLinePatternProgram p layer tile
  else bindLineProgram p layer tile

/-- The three line program variants. -/
inductive LineVariant
  | solid
  | dashed
  | patterned
deriving DecidableEq

/-- The variant selected by the dispatch of `drawLine` for a given paint. -/
def selectLineVariant (paint : LinePaint) : LineVariant :=
  if paint.lineDasharray.isSome then .dashed
  else if paint.linePattern.isSome then .patterned
  else .solid

/-- The program name of a variant. -/
def variantProgram : LineVariant → String
  | .solid => "line"
  | .dashed => "linesdfpattern"
  | .patterned => "linepattern"

/-- One iteration of the `coords` loop of `drawLine` (lines 31–73) for a
single coordinate.  A missing bucket or missing line buffer groups is a
`continue` (empty trace, no error).  When the bind step returned
`undefined` (missing pattern image), the loop body nevertheless proceeds:
the shared `painter.setUniforms` call runs, and then
`gl.uniformMatrix2fv(program.u_antialiasingmatrix, …)` dereferences
`undefined` and throws a `TypeError`. -/
def drawCoord (p : Painter) (s : TileSource) (layer : Layer) (c : Coord) :
    List GLEvent × Option JSError :=
  let tile := s.getTile c
  match tile.getBucket layer.id with
  | none => ([], none)
  | some bucket =>
    match bucket.lineBufferGroups with
    | none => ([], none)
    | some groups =>
      let bound := bindLineLayerProgram p layer tile
      match bound.2 with
      | .error e => (bound.1, some e)
      | .ok none =>
        (bound.1 ++ [.setSharedUniforms (sharedLineUniforms p layer tile)], some .typeError)
      | .ok (some _) =>
        (bound.1 ++
          [.setSharedUniforms (sharedLineUniforms p layer tile),
           .setAntialiasingMatrix, .setPosMatrix, .setBucketUniforms,
           .enableTileClippingMask c] ++
          groups.flatMap (fun g =>
            [.bindVAO layer.id, .drawElementsTriangles (g.elementBufferLength * 3)]),
         none)

/-- The `coords` loop of `drawLine`: a thrown error aborts the remaining
iterations, keeping the trace produced so far. -/
def drawCoords (p : Painter) (s : TileSource) (layer : Layer) :
    List Coord → List GLEvent × Option JSError
  | [] => ([], none)
  | c :: rest =>
    let first := drawCoord p s layer c
    match first.2 with
    | some e => (first.1, some e)
    | none =>
      let restRun := drawCoords p s layer rest
      (first.1 ++ restRun.1, restRun.2)

/-- `drawLine` (lines 17–74).  The opaque-pass guard returns before any GL
call; the width guard returns only after `setDepthSublayer(0)`,
`depthMask(false)` and `gl.enable(gl.STENCIL_TEST)` have run. -/
def drawLine (p : Painter) (s : TileSource) (layer : Layer) (coords : List Coord) :
    List GLEvent × Option JSError :=
  if p.isOpaquePass then ([], none)
  else if layer.paint.lineWidth ≤ 0 then
    ([.setDepthSublayer 0, .depthMask false, .enableStencilTest], none)
  else
    let runCoords := drawCoords p s layer coords
    ([.setDepthSublayer 0, .depthMask false, .enableStencilTest] ++ runCoords.1, runCoords.2)

/-- Whether an event is a `gl.drawElements(gl.TRIANGLES, …)` call. -/
def isDrawCall : GLEvent → Bool
  | .drawElementsTriangles _ => true
  | _ => false

/-- The number of `gl.drawElements(gl.TRIANGLES, …)` calls in a trace. -/
def countDraws (evs : List GLEvent) : ℕ := (evs.filter isDrawCall).length

/-- The number of line buffer groups the bucket of a layer holds at a
coordinate (0 when the bucket or its line groups are absent). -/
def lineGroupCount (s : TileSource) (layer : Layer) (c : Coord) : ℕ :=
  match (s.getTile c).getBucket layer.id with
  | none => 0
  | some bucket =>
    match bucket.lineBufferGroups with
    | none => 0
    | some groups => groups.length

/-- The fields of `painter.transform` consumed by `getExtra`. -/
structure TransformR where
  height : ℝ
  altitude : ℝ
  pitch : ℝ

/-- `getExtra` (lines 154–159):
`topedgelength = sqrt(height² / 4 * (1 + altitude²))`,
`x = height / 2 * tan(pitch)`, result `(topedgelength + x) / topedgelength - 1`. -/
noncomputable def getExtra (t : TransformR) : ℝ :=
  let topedgelength :=
    Real.sqrt (t.height * t.height / 4 * (1 + t.altitude * t.altitude))
  let x := t.height / 2 * Real.tan t.pitch
  (topedgelength + x) / topedgelength - 1

/-- A style layer as consumed by the layer-family grouper: only the fields
the grouping criterion reads (source layer, bucket-relevant layout). -/
structure StyleLayer where
  sourceLayer : String
  layoutKey : String
deriving DecidableEq

/-- Whether two style layers belong to the same family: same source layer
and identical bucket-relevant layout. -/
def sameFamily (a b : StyleLayer) : Bool :=
  a.sourceLayer == b.sourceLayer && a.layoutKey == b.layoutKey

/-- Insert a layer into the first family it matches, or append a new
singleton family. -/
def insertLayer (l : StyleLayer) : List (List StyleLayer) → List (List StyleLayer)
  | [] => [[l]]
  | g :: gs =>
    match g.head? with
    | some h => if sameFamily h l then (g ++ [l]) :: gs else g :: insertLayer l gs
    | none => g :: insertLayer l gs

/-- Modelled from the spec: the grouping computed by `worker['set layers']`
(the worker module is outside this repository slice).  Per spec §4.2, the
ordered style layers are partitioned so that two layers share a family iff
they reference the same source layer and have identical bucket-relevant
layout properties. -/
def groupFamilies (layers : List StyleLayer) : List (List StyleLayer) :=
  layers.foldl (fun acc l => insertLayer l acc) []

/-- The result object of one grouping computation.  `objId` models
JavaScript object identity: each recomputation builds a fresh
`worker.layerFamilies` object, so distinct computations have distinct
`objId` even when the groups are structurally equal. -/
structure Families where
  objId : ℕ
  groups : List (List StyleLayer)
deriving DecidableEq

/-- A JavaScript array argument: `ref` models reference identity
(`!==` compares `ref`), `content` its elements. -/
structure LayersArray where
  ref : ℕ
  content : List StyleLayer
deriving DecidableEq

/-- The module-level cache of `createLayerFamilies`
(`createLayerFamiliesCacheKey` / `createLayerFamiliesCacheValue`), plus a
fresh-object counter supplying `objId`s.  Initially both slots are
`undefined` (`none`). -/
structure GrouperState where
  cacheKey : Option ℕ
  cacheValue : Option Families
  fresh : ℕ
deriving DecidableEq

/-- `createLayerFamilies` (lines 230–241 of `dds_update_bucket.js`):
`if (layers !== cacheKey) { recompute; cacheKey := layers; cacheValue := result }
return cacheValue`. -/
def createLayerFamilies (st : GrouperState) (layers : LayersArray) :
    Option Families × GrouperState :=
  if st.cacheKey = some layers.ref then (st.cacheValue, st)
  else
    let v : Families := ⟨st.fresh, groupFamilies layers.content⟩
    (some v, ⟨some layers.ref, some v, st.fresh + 1⟩)

/-- A line paint with every numeric property zeroed, width 1, no dash and
no pattern; the base the concrete test inputs below modify. -/
def basePaint : LinePaint :=
  { lineWidth := 1, lineBlur := 0, lineOpacity := 1, lineOffset := 0
    lineGapWidth := 0, lineTranslate := (0, 0), lineTranslateAnchor := "map"
    lineDasharray := none, linePattern := none }

/-- A dash-atlas entry used by concrete runs. -/
def sampleDashEntry : DashEntry := ⟨0, 5, 32, 15⟩

/-- A sprite-atlas entry used by concrete runs. -/
def sampleImagePos : ImagePos := ⟨(0, 0), (1, 1), (8, 4)⟩

/-- A painter whose atlases resolve every lookup. -/
def samplePainter : Painter :=
  { isOpaquePass := false, devicePixelRatio := 1, lineAtlasWidth := 256
    getDash := fun _ _ => some sampleDashEntry
    getPosition := fun _ _ => some sampleImagePos
    transform := ⟨14, 14⟩
    pixelsToTileUnits := fun _ v _ => v * 8 }

/-- A bucket with two line buffer groups. -/
def sampleBucket : Bucket := ⟨some [⟨2⟩, ⟨3⟩]⟩

/-- A tile that resolves every layer id to `sampleBucket`. -/
def sampleTile : Tile := ⟨fun _ => some sampleBucket⟩

/-- A source that resolves every coordinate to `sampleTile`. -/
def sampleSource : TileSource := ⟨fun _ => sampleTile⟩

/-- A solid line layer. -/
def solidLayer : Layer := ⟨"road", basePaint, ⟨"butt"⟩⟩

/-- A dashed line layer (whose paint also carries a pattern, exercising
the dash-first dispatch). -/
def dashedLayer : Layer :=
  ⟨"dashed",
   { basePaint with
     lineDasharray := some ⟨"d0", "d1", 1, 2, 0⟩
     linePattern := some ⟨"p0", "p1", 1, 1, 0⟩ },
   ⟨"round"⟩⟩

/-- A patterned line layer (pattern set, no dash). -/
def patternLayer : Layer :=
  ⟨"hatch", { basePaint with linePattern := some ⟨"p0", "p1", 1, 1, 0⟩ }, ⟨"butt"⟩⟩

/-- A painter identical to `samplePainter` except that the sprite atlas
has not loaded any image yet (`getPosition` returns `null`). -/
def missingImagePainter : Painter :=
  { samplePainter with getPosition := fun _ _ => none }

/-! ## Helper lemmas -/

theorem countDraws_append (a b : List GLEvent) :
    countDraws (a ++ b) = countDraws a + countDraws b := by
  simp [countDraws, List.filter_append]

theorem countDraws_bindLineLayerProgram (p : Painter) (l : Layer) (t : Tile) :
    countDraws (bindLineLayerProgram p l t).1 = 0 := by
  unfold bindLineLayerProgram bindLineSDFPatternProgram bindLinePatternProgram bindLineProgram
  rcases hd : l.paint.lineDasharray with _ | d
  · rcases hp : l.paint.linePattern with _ | i
    · simp [hd, hp, countDraws, isDrawCall]
    · rcases hA : p.getPosition i.fromId true with _ | a <;>
        rcases hB : p.getPosition i.toId true with _ | b <;>
        simp [hd, hp, hA, hB, countDraws, isDrawCall]
  · rcases hA : p.getDash d.fromId (l.layout.lineCap == "round") with _ | a <;>
      rcases hB : p.getDash d.toId (l.layout.lineCap == "round") with _ | b <;>
      simp [hd, hA, hB, countDraws, isDrawCall]

theorem countDraws_groups (lid : String) (groups : List BufferGroup) :
    countDraws (groups.flatMap fun g =>
      [GLEvent.bindVAO lid, GLEvent.drawElementsTriangles (g.elementBufferLength * 3)]) =
      groups.length := by
  induction groups with
  | nil => simp [countDraws]
  | cons g rest ih =>
    simp only [List.flatMap_cons, countDraws_append, ih]
    simp [countDraws, isDrawCall]
    omega

theorem countDraws_drawCoord (p : Painter) (s : TileSource) (l : Layer) (c : Coord)
    (h : (drawCoord p s l c).2 = none) :
    countDraws (drawCoord p s l c).1 = lineGroupCount s l c := by
  rcases hb : (s.getTile c).getBucket l.id with _ | bucket
  · simp [drawCoord, lineGroupCount, hb, countDraws]
  · rcases hg : bucket.lineBufferGroups with _ | groups
    · simp [drawCoord, lineGroupCount, hb, hg, countDraws]
    · rcases hr : (bindLineLayerProgram p l (s.getTile c)).2 with e | prog
      · exfalso
        simp [drawCoord, hb, hg, hr] at h
      · rcases prog with _ | name
        · exfalso
          simp [drawCoord, hb, hg, hr] at h
        · simp [drawCoord, lineGroupCount, hb, hg, hr, countDraws_append,
            countDraws_bindLineLayerProgram]
          simpa [countDraws] using countDraws_groups l.id groups

theorem countDraws_drawCoords (p : Painter) (s : TileSource) (l : Layer) (cs : List Coord)
    (h : (drawCoords p s l cs).2 = none) :
    countDraws (drawCoords p s l cs).1 = (cs.map (lineGroupCount s l)).sum := by
  induction cs with
  | nil => simp [drawCoords, countDraws]
  | cons c rest ih =>
    rcases he : (drawCoord p s l c).2 with _ | e
    · have h2 : (drawCoords p s l rest).2 = none := by
        simpa [drawCoords, he] using h
      simp [drawCoords, he, countDraws_append, countDraws_drawCoord p s l c he, ih h2]
    · exfalso
      simp [drawCoords, he] at h

/-! ## Claim theorems -/

/-- C2: a layer with a set (truthy) line-dasharray selects the dashed
(`linesdfpattern`) variant, never patterned or solid, regardless of a
present line-pattern; a truthy line-pattern with no dash selects the
patterned variant; with neither, solid is selected — exactly one of the
three, and the dispatch of `drawLine` binds exactly the selected
variant's program. -/
theorem lineVariantSelection (p : Painter) (l : Layer) (t : Tile) :
    (∀ d, l.paint.lineDasharray = some d → selectLineVariant l.paint = .dashed) ∧
    (l.paint.lineDasharray = none → ∀ i, l.paint.linePattern = some i →
      selectLineVariant l.paint = .patterned) ∧
    (l.paint.lineDasharray = none → l.paint.linePattern = none →
      selectLineVariant l.paint = .solid) ∧
    (bindLineLayerProgram p l t).1.head? =
      some (.useProgram (variantProgram (selectLineVariant l.paint))) := by
  refine ⟨?_, ?_, ?_, ?_⟩
  · intro d hd
    simp [selectLineVariant, hd]
  · intro hd i hp
    simp [selectLineVariant, hd, hp]
  · intro hd hp
    simp [selectLineVariant, hd, hp]
  · unfold bindLineLayerProgram bindLineSDFPatternProgram bindLinePatternProgram
      bindLineProgram selectLineVariant variantProgram
    rcases hd : l.paint.lineDasharray with _ | d
    · rcases hp : l.paint.linePattern with _ | i
      · simp [hd, hp]
      · rcases hA : p.getPosition i.fromId true with _ | a <;>
          rcases hB : p.getPosition i.toId true with _ | b <;>
          simp [hd, hp, hA, hB]
    · rcases hA : p.getDash d.fromId (l.layout.lineCap == "round") with _ | a <;>
        rcases hB : p.getDash d.toId (l.layout.lineCap == "round") with _ | b <;>
        simp [hd, hA, hB]

/-- C2 witness: a layer carrying both a dasharray and a pattern selects the
dashed variant. -/
theorem lineVariantSelectionWitness :
    selectLineVariant dashedLayer.paint = .dashed :=
  (lineVariantSelection samplePainter dashedLayer sampleTile).1 ⟨"d0", "d1", 1, 2, 0⟩ rfl

/-- C5 counterexample: the source adds one whole device pixel
(`1 / devicePixelRatio`) to the style blur, not half a device pixel: with
`devicePixelRatio = 1` and `line-blur = 0` the bound `u_blur` is `1`, not
`0 + (1/1)/2 = 1/2`. -/
theorem sharedBlurHalfPixelCounterexample :
    (sharedLineUniforms samplePainter solidLayer sampleTile).blur ≠
      solidLayer.paint.lineBlur + (1 / samplePainter.devicePixelRatio) / 2 := by
  norm_num [sharedLineUniforms, samplePainter, solidLayer, basePaint]

/-- C5 (amended): for every layer drawn, the shared `u_blur` equals the
layer's line-blur plus one device pixel (`1 / devicePixelRatio`), and the
shared `u_antialiasing` equals half a device pixel; both are computed by
the one variant-independent shared-uniform block, so changing the
dasharray/pattern fields (the variant) leaves the whole record unchanged. -/
theorem sharedUniformValues (p : Painter) (l : Layer) (t : Tile)
    (d pat : Option CrossFaded) :
    (sharedLineUniforms p l t).blur = l.paint.lineBlur + 1 / p.devicePixelRatio ∧
    (sharedLineUniforms p l t).antialiasing = (1 / p.devicePixelRatio) / 2 ∧
    sharedLineUniforms p
      { l with paint := { l.paint with lineDasharray := d, linePattern := pat } } t =
      sharedLineUniforms p l t :=
  ⟨rfl, rfl, rfl⟩

/-- C6: in the patterned variant the second component of both
`u_pattern_size_a` and `u_pattern_size_b` is `imagePosB.size[1]`, while
the first components are `pixelsToTileUnits` of
`imagePosA.size[0] * fromScale` and of `imagePosB.size[0] * toScale`
respectively. -/
theorem patternSizeComponents (p : Painter) (t : Tile) (image : CrossFaded)
    (posA posB : ImagePos) :
    (patternLineUniforms p t image posA posB).patternSizeA.2 = posB.size.2 ∧
    (patternLineUniforms p t image posA posB).patternSizeB.2 = posB.size.2 ∧
    (patternLineUniforms p t image posA posB).patternSizeA.1 =
      p.pixelsToTileUnits t (posA.size.1 * image.fromScale) p.transform.tileZoom ∧
    (patternLineUniforms p t image posA posB).patternSizeB.1 =
      p.pixelsToTileUnits t (posB.size.1 * image.toScale) p.transform.tileZoom :=
  ⟨rfl, rfl, rfl, rfl⟩

/-- C7: in the dashed variant `u_sdfgamma` equals
`atlasWidth / (min(widthA, widthB) * 256 * devicePixelRatio) / 2` with
`widthA = posA.width * fromScale` and `widthB = posB.width * toScale`. -/
theorem sdfGammaFormula (p : Painter) (t : Tile) (dasharray : CrossFaded)
    (posA posB : DashEntry) :
    (dashedLineUniforms p t dasharray posA posB).sdfgamma =
      p.lineAtlasWidth /
        (min (posA.width * dasharray.fromScale) (posB.width * dasharray.toScale) *
          256 * p.devicePixelRatio) / 2 :=
  rfl

/-- C9: the two skip guards of `drawLine` differ in side effects — the
opaque-pass guard returns before any GL state change, while the
width-≤-0 guard returns only after `setDepthSublayer(0)`,
`depthMask(false)` and `gl.enable(gl.STENCIL_TEST)` have run, and still
issues no draw call. -/
theorem drawLineSkipAsymmetry (p : Painter) (s : TileSource) (l : Layer)
    (coords : List Coord) :
    (p.isOpaquePass = true → drawLine p s l coords = ([], none)) ∧
    (p.isOpaquePass = false → l.paint.lineWidth ≤ 0 →
      drawLine p s l coords =
        ([.setDepthSublayer 0, .depthMask false, .enableStencilTest], none)) := by
  constructor
  · intro h
    simp [drawLine, h]
  · intro h hw
    simp [drawLine, h, hw]

/-- C9 witness: a width-0 layer on a non-opaque pass leaves exactly the
three GL state changes in the trace and no error. -/
theorem drawLineSkipAsymmetryWitness :
    drawLine samplePainter sampleSource
        ⟨"w0", { basePaint with lineWidth := 0 }, ⟨"butt"⟩⟩ [⟨0, 0, 0⟩] =
      ([.setDepthSublayer 0, .depthMask false, .enableStencilTest], none) :=
  (drawLineSkipAsymmetry samplePainter sampleSource
      ⟨"w0", { basePaint with lineWidth := 0 }, ⟨"butt"⟩⟩ [⟨0, 0, 0⟩]).2 rfl le_rfl

/-- C10: the dashed path has no missing-asset guard — when the dash atlas
resolves both the `from` and `to` ids, `bindLineSDFPatternProgram`
completes with no reachable error branch, and when either lookup is
`null` it throws a `TypeError` (dereference of `.width`) instead of
skipping. -/
theorem dashedBindTotality (p : Painter) (l : Layer) (t : Tile) (d : CrossFaded)
    (hd : l.paint.lineDasharray = some d) :
    (∀ a b, p.getDash d.fromId (l.layout.lineCap == "round") = some a →
        p.getDash d.toId (l.layout.lineCap == "round") = some b →
      bindLineSDFPatternProgram p l t =
        ([.useProgram "linesdfpattern",
          .setDashUniforms (dashedLineUniforms p t d a b),
          .uniform1i "u_image" 0, .activeTexture 0, .bindLineAtlas],
         .ok (some "linesdfpattern"))) ∧
    ((p.getDash d.fromId (l.layout.lineCap == "round") = none ∨
      p.getDash d.toId (l.layout.lineCap == "round") = none) →
      bindLineSDFPatternProgram p l t =
        ([.useProgram "linesdfpattern"], .error .typeError)) := by
  constructor
  · intro a b hA hB
    simp [bindLineSDFPatternProgram, hd, hA, hB]
  · rintro (hA | hB)
    · simp [bindLineSDFPatternProgram, hd, hA]
    · rcases hA : p.getDash d.fromId (l.layout.lineCap == "round") with _ | a <;>
        simp [bindLineSDFPatternProgram, hd, hA, hB]

/-- C10 witness: with a fully loaded dash atlas the dashed bind of
`dashedLayer` completes without error. -/
theorem dashedBindTotalityWitness :
    bindLineSDFPatternProgram samplePainter dashedLayer sampleTile =
      ([.useProgram "linesdfpattern",
        .setDashUniforms (dashedLineUniforms samplePainter sampleTile
          ⟨"d0", "d1", 1, 2, 0⟩ sampleDashEntry sampleDashEntry),
        .uniform1i "u_image" 0, .activeTexture 0, .bindLineAtlas],
       .ok (some "linesdfpattern")) :=
  (dashedBindTotality samplePainter dashedLayer sampleTile
      ⟨"d0", "d1", 1, 2, 0⟩ rfl).1 sampleDashEntry sampleDashEntry rfl rfl

/-- C8: `drawLine` issues no draw call when the opaque pass is active or
line-width ≤ 0; whenever the trace contains an indexed triangle draw, the
trace begins with `setDepthSublayer(0)`, `depthMask(false)` and stencil
enable (so both precede every draw); and on a run that completes without a
thrown error, exactly one `gl.drawElements(TRIANGLES)` call is issued per
line buffer group of each coordinate's bucket. -/
theorem drawLineDrawCallDiscipline (p : Painter) (s : TileSource) (l : Layer)
    (coords : List Coord) :
    (p.isOpaquePass = true ∨ l.paint.lineWidth ≤ 0 →
      countDraws (drawLine p s l coords).1 = 0) ∧
    (∀ n, GLEvent.drawElementsTriangles n ∈ (drawLine p s l coords).1 →
      ∃ rest, (drawLine p s l coords).1 =
        [.setDepthSublayer 0, .depthMask false, .enableStencilTest] ++ rest) ∧
    (p.isOpaquePass = false → 0 < l.paint.lineWidth →
      (drawLine p s l coords).2 = none →
      countDraws (drawLine p s l coords).1 =
        (coords.map (lineGroupCount s l)).sum) := by
  refine ⟨?_, ?_, ?_⟩
  · rintro (h | h)
    · simp [drawLine, h, countDraws]
    · by_cases ho : p.isOpaquePass
      · simp [drawLine, ho, countDraws]
      · simp [drawLine, ho, h, countDraws, isDrawCall]
  · intro n hn
    by_cases ho : p.isOpaquePass
    · simp [drawLine, ho] at hn
    · by_cases hw : l.paint.lineWidth ≤ 0
      · exact ⟨[], by simp [drawLine, ho, hw]⟩
      · exact ⟨(drawCoords p s l coords).1, by simp [drawLine, ho, hw]⟩
  · intro ho hw herr
    have hw2 : ¬ l.paint.lineWidth ≤ 0 := not_le.mpr hw
    have h2 : (drawCoords p s l coords).2 = none := by
      simpa [drawLine, ho, hw2] using herr
    have htrace : (drawLine p s l coords).1 =
        [.setDepthSublayer 0, .depthMask false, .enableStencilTest] ++
          (drawCoords p s l coords).1 := by
      simp [drawLine, ho, hw2]
    rw [htrace, countDraws_append, countDraws_drawCoords p s l coords h2]
    simp [countDraws, isDrawCall]

/-- C8 witness: a solid layer over one coordinate whose bucket has two
buffer groups completes without error and issues one draw per group. -/
theorem drawLineDrawCallDisciplineWitness :
    countDraws (drawLine samplePainter sampleSource solidLayer [⟨0, 0, 0⟩]).1 =
      (([⟨0, 0, 0⟩] : List Coord).map (lineGroupCount sampleSource solidLayer)).sum := by
  have herr : (drawLine samplePainter sampleSource solidLayer [⟨0, 0, 0⟩]).2 = none := by
    norm_num [drawLine, drawCoords, drawCoord, bindLineLayerProgram, bindLineProgram,
      samplePainter, solidLayer, basePaint, sampleSource, sampleTile, sampleBucket]
  exact (drawLineDrawCallDiscipline samplePainter sampleSource solidLayer [⟨0, 0, 0⟩]).2.2
    rfl (by norm_num [solidLayer, basePaint]) herr

/-- C4: calling the layer-family grouper a second time with the same array
reference returns the identical cached result object and leaves the cache
untouched (no recomputation); calling it with a structurally-equal but
distinct reference recomputes (a fresh result object) and replaces the
single-slot cache with the new result. -/
theorem layerFamiliesCache (st : GrouperState) (L L2 : LayersArray)
    (hne : L2.ref ≠ L.ref) (hstruct : L2.content = L.content) :
    createLayerFamilies (createLayerFamilies st L).2 L = createLayerFamilies st L ∧
    (createLayerFamilies (createLayerFamilies st L).2 L2).1 =
      some ⟨(createLayerFamilies st L).2.fresh, groupFamilies L.content⟩ ∧
    (createLayerFamilies (createLayerFamilies st L).2 L2).2.cacheKey = some L2.ref ∧
    (createLayerFamilies (createLayerFamilies st L).2 L2).2.cacheValue =
      (createLayerFamilies (createLayerFamilies st L).2 L2).1 ∧
    (createLayerFamilies (createLayerFamilies st L).2 L2).2.fresh =
      (createLayerFamilies st L).2.fresh + 1 := by
  have hit : ∀ st1 : GrouperState, st1.cacheKey = some L.ref →
      createLayerFamilies st1 L = (st1.cacheValue, st1) := by
    intro st1 h
    simp [createLayerFamilies, h]
  have miss : ∀ (st1 : GrouperState) (A : LayersArray), st1.cacheKey ≠ some A.ref →
      createLayerFamilies st1 A =
        (some ⟨st1.fresh, groupFamilies A.content⟩,
         ⟨some A.ref, some ⟨st1.fresh, groupFamilies A.content⟩, st1.fresh + 1⟩) := by
    intro st1 A h
    simp [createLayerFamilies, h]
  have hkey : ((createLayerFamilies st L).2).cacheKey = some L.ref := by
    by_cases h : st.cacheKey = some L.ref
    · rw [hit st h]
      exact h
    · rw [miss st L h]
  have hkey2 : ((createLayerFamilies st L).2).cacheKey ≠ some L2.ref := by
    rw [hkey]
    intro e
    exact hne (Option.some_injective _ e).symm
  have houter := miss (createLayerFamilies st L).2 L2 hkey2
  refine ⟨?_, ?_, ?_, ?_, ?_⟩
  · by_cases h : st.cacheKey = some L.ref
    · rw [hit st h]
      exact hit st h
    · rw [miss st L h]
      exact hit _ rfl
  · simp [houter, hstruct]
  · simp [houter]
  · simp [houter]
  · simp [houter]

/-- C4 witness: first call caches, second call with the same reference
returns the identical result and state. -/
theorem layerFamiliesCacheWitness :
    createLayerFamilies
        (createLayerFamilies ⟨none, none, 0⟩ ⟨0, [⟨"roads", "round"⟩]⟩).2
        ⟨0, [⟨"roads", "round"⟩]⟩ =
      createLayerFamilies ⟨none, none, 0⟩ ⟨0, [⟨"roads", "round"⟩]⟩ :=
  (layerFamiliesCache ⟨none, none, 0⟩ ⟨0, [⟨"roads", "round"⟩]⟩
    ⟨1, [⟨"roads", "round"⟩]⟩ (by decide) rfl).1

/-- C3 (amended): `u_extra` equals `(topEdgeLength + x) / topEdgeLength - 1`
with `topEdgeLength = sqrt(height²/4 * (1 + altitude²))` and
`x = height/2 * tan(pitch)`; for pitch = 0 it evaluates to 0 for every
altitude and every nonzero height, and for every pitch in (0, π/2) with
positive height it is strictly positive. -/
theorem getExtraFormula (t : TransformR) :
    getExtra t =
      (Real.sqrt (t.height * t.height / 4 * (1 + t.altitude * t.altitude)) +
          t.height / 2 * Real.tan t.pitch) /
        Real.sqrt (t.height * t.height / 4 * (1 + t.altitude * t.altitude)) - 1 ∧
    (t.pitch = 0 → t.height ≠ 0 → getExtra t = 0) ∧
    (0 < t.pitch → t.pitch < Real.pi / 2 → 0 < t.height → 0 < getExtra t) := by
  have harg : t.height ≠ 0 → 0 < t.height * t.height / 4 * (1 + t.altitude * t.altitude) := by
    intro hh
    have h1 : 0 < t.height * t.height := mul_self_pos.mpr hh
    have h2 : (0:ℝ) < 1 + t.altitude * t.altitude :=
      add_pos_of_pos_of_nonneg one_pos (mul_self_nonneg _)
    exact mul_pos (div_pos h1 (by norm_num)) h2
  refine ⟨rfl, ?_, ?_⟩
  · intro hp hh
    have hs : 0 < Real.sqrt (t.height * t.height / 4 * (1 + t.altitude * t.altitude)) :=
      Real.sqrt_pos.mpr (harg hh)
    show (Real.sqrt (t.height * t.height / 4 * (1 + t.altitude * t.altitude)) +
        t.height / 2 * Real.tan t.pitch) /
        Real.sqrt (t.height * t.height / 4 * (1 + t.altitude * t.altitude)) - 1 = 0
    rw [hp, Real.tan_zero, mul_zero, add_zero, div_self (ne_of_gt hs), sub_self]
  · intro h0 hlt hh
    have hs : 0 < Real.sqrt (t.height * t.height / 4 * (1 + t.altitude * t.altitude)) :=
      Real.sqrt_pos.mpr (harg (ne_of_gt hh))
    have hx : 0 < t.height / 2 * Real.tan t.pitch :=
      mul_pos (by linarith) (Real.tan_pos_of_pos_of_lt_pi_div_two h0 hlt)
    show 0 < (Real.sqrt (t.height * t.height / 4 * (1 + t.altitude * t.altitude)) +
        t.height / 2 * Real.tan t.pitch) /
        Real.sqrt (t.height * t.height / 4 * (1 + t.altitude * t.altitude)) - 1
    have h1 : 1 < (Real.sqrt (t.height * t.height / 4 * (1 + t.altitude * t.altitude)) +
        t.height / 2 * Real.tan t.pitch) /
        Real.sqrt (t.height * t.height / 4 * (1 + t.altitude * t.altitude)) :=
      (one_lt_div hs).mpr (by linarith)
    linarith

/-- C3 counterexample: the claim quantifies over every height, but at
height 0 (with pitch 0, altitude 0) `topEdgeLength` is 0 and the code's
expression does not evaluate to 0 (in this real-valued model it is −1; in
JavaScript it is `NaN`, likewise not 0). -/
theorem getExtraZeroHeightCounterexample :
    (⟨0, 0, 0⟩ : TransformR).pitch = 0 ∧ getExtra ⟨0, 0, 0⟩ ≠ 0 := by
  constructor
  · rfl
  · have h : getExtra ⟨0, 0, 0⟩ = -1 := by
      show (Real.sqrt ((0:ℝ) * 0 / 4 * (1 + 0 * 0)) + (0:ℝ) / 2 * Real.tan 0) /
          Real.sqrt ((0:ℝ) * 0 / 4 * (1 + 0 * 0)) - 1 = -1
      norm_num [Real.sqrt_zero, Real.tan_zero]
    rw [h]
    norm_num

/-- C3 witness: at height 2, altitude 0, pitch 0 the correction is 0. -/
theorem getExtraFormulaWitness : getExtra ⟨2, 0, 0⟩ = 0 :=
  (getExtraFormula ⟨2, 0, 0⟩).2.1 rfl (by norm_num)

/-- C1: run of `drawLine` at the failing input — a patterned layer whose
sprite-atlas lookups return `null`.  `bindLinePatternProgram` returns no
program, but `drawLine` does not check this: it still binds the shared
uniforms and then throws a `TypeError` dereferencing
`program.u_antialiasingmatrix`, aborting the frame instead of skipping
the coordinate non-fatally. -/
theorem missingPatternImageRun :
    drawLine missingImagePainter sampleSource patternLayer [⟨0, 0, 0⟩] =
      ([.setDepthSublayer 0, .depthMask false, .enableStencilTest,
        .useProgram "linepattern",
        .setSharedUniforms (sharedLineUniforms missingImagePainter patternLayer sampleTile)],
       some .typeError) := by
  norm_num [drawLine, drawCoords, drawCoord, bindLineLayerProgram, bindLinePatternProgram,
    missingImagePainter, samplePainter, patternLayer, basePaint, sampleSource, sampleTile,
    sampleBucket]
